import Mathlib

/-!
Verification of the homebridge-sharp-rs232 design specification against the
repository sources.

The repository contains three adapter variants (src/accessory.ts with class
SharpRS232, the two Television variants of src/platformAccessory.ts, and the
SharpSerial switch accessory), plus a platform index.  The command queue and
response-correlation engine (class SerialProtocol, src/protocols/serial.ts)
is imported by the first Television variant but its source file is not part
of the source tree here, so it is modelled from the specification text.

All machine strings are Lean `String`s; JavaScript string primitives used by
the handlers (String.prototype.includes, parseInt, Array.prototype.findIndex)
are embedded as executable Lean functions below.
-/

set_option maxHeartbeats 1000000

/-- Does the character list `sub` occur as a leading block of the second list?
Auxiliary for the embedding of JS String.prototype.includes. -/
def startsWithList : List Char → List Char → Bool
  | [], _ => true
  | _ :: _, [] => false
  | a :: s, b :: t => a == b && startsWithList s t

/-- Does `sub` occur as a contiguous block anywhere in the second list? -/
def containsList (sub : List Char) : List Char → Bool
  | [] => startsWithList sub []
  | b :: t => startsWithList sub (b :: t) || containsList sub t

/-- Embedding of JS `s.includes(sub)`: substring containment test. -/
def jsIncludes (s sub : String) : Bool :=
  containsList sub.toList s.toList

/-- Decimal value of an ASCII digit character, `none` otherwise. -/
def digitVal (c : Char) : Option Nat :=
  if c.isDigit then some (c.toNat - 48) else none

/-- Accumulate the longest leading run of decimal digits; `none` means no
digit has been seen (JS `NaN`). -/
def leadDigits : List Char → Option Nat → Option Nat
  | [], acc => acc
  | c :: t, acc =>
    match digitVal c with
    | some d => leadDigits t (some (acc.getD 0 * 10 + d))
    | none => acc

/-- Embedding of JS `parseInt(s)` for the unsigned decimal forms that occur in
this code base: the longest leading digit run is read in base ten; `none`
stands for `NaN` (no leading digit). -/
def parseIntJS (s : String) : Option Int :=
  (leadDigits s.toList none).map Int.ofNat

/-- Embedding of JS `Array.prototype.findIndex`, index accumulator version:
first index (counting from `i`) whose element satisfies `p`, else `-1`. -/
def findIndexGo (p : α → Bool) : Nat → List α → Int
  | _, [] => -1
  | i, a :: t => if p a then (i : Int) else findIndexGo p (i + 1) t

/-- Embedding of JS `l.findIndex(p)`. -/
def findIndexJS (p : α → Bool) (l : List α) : Int :=
  findIndexGo p 0 l

/-- One configured input definition from the platform config
(src/platformAccessory.ts registration block: id, display name, numeric
InputSourceType tag).  The device ids are compared with strict equality
against the number produced by parseInt, so they are modelled as integers. -/
structure InputDef where
  id : Int
  name : String
  type : Int
deriving DecidableEq

/-- The cached characteristic state of the Television accessory
(src/platformAccessory.ts lines 21-23). -/
structure States where
  ActiveIdentifier : Int
deriving DecidableEq

/-- Initial cached state: `private states = { ActiveIdentifier: 0 }`
(src/platformAccessory.ts lines 21-23). -/
def Television.initialStates : States := { ActiveIdentifier := 0 }

/-- Outcome delivered to a HomeKit characteristic callback: either
`callback(null, value)` or `callback(new Error(msg), value)`. -/
inductive CbRes where
  | ok (value : Int)
  | err (msg : String) (value : Int)
deriving DecidableEq

/-- Does the response line contain one of the tokens 0001..0008?  This is the
eight-way disjunction guarding the first branch of getActiveIdentifier
(src/platformAccessory.ts line 217). -/
def hasInputToken (data : String) : Bool :=
  jsIncludes data "0001" || jsIncludes data "0002" || jsIncludes data "0003" ||
  jsIncludes data "0004" || jsIncludes data "0005" || jsIncludes data "0006" ||
  jsIncludes data "0007" || jsIncludes data "0008"

/-- Does the input definition's id strictly equal the parseInt result?
JS strict equality with `NaN` (here `none`) is always false. -/
def idMatches (inp : InputDef) (pid : Option Int) : Bool :=
  match pid with
  | none => false
  | some k => inp.id == k

/-- Television.getActiveIdentifier response handling
(src/platformAccessory.ts lines 210-237): given the configured input list
(`none` when the config has no inputs entry), the cached ActiveIdentifier and
the response line, produce either a thrown TypeError (`Except.error`, from
calling findIndex on an undefined list) or the callback invocation. -/
def Television.getActiveIdentifier (inputs : Option (List InputDef))
    (cachedAI : Int) (data : String) : Except String CbRes :=
  if hasInputToken data then
    match inputs with
    | none => Except.error "TypeError: Cannot read property findIndex of undefined"
    | some l =>
      Except.ok (CbRes.ok (findIndexJS (fun inp => idMatches inp (parseIntJS data)) l))
  else if jsIncludes data "ERR" then
    Except.ok (CbRes.ok cachedAI)
  else
    Except.ok (CbRes.err ("While attempting to get input state, serial command returned " ++ data) 0)

/-- Television.setActiveIdentifier (src/platformAccessory.ts lines 179-204):
indexing `inputs[value]` on a missing list or past its end throws a
TypeError (`Except.error`) before any command is sent; otherwise the command
string is built from the input's id and, on response `data`, the handler
performs `if (data)` (JS truthiness: non-empty string): success updates the
cached ActiveIdentifier and calls back with no error, the empty string calls
back with an Error and leaves the cache unchanged.  Result on success:
(command written, callback error argument, new states). -/
def Television.setActiveIdentifier (inputs : Option (List InputDef))
    (st : States) (value : Nat) (data : String) :
    Except String (String × Option String × States) :=
  match inputs with
  | none => Except.error "TypeError: Cannot read property 0 of undefined"
  | some l =>
    match l[value]? with
    | none => Except.error "TypeError: Cannot read property id of undefined"
    | some thisInput =>
      if data ≠ "" then
        Except.ok ("IAVD" ++ toString thisInput.id ++ "   \r",
          none, { st with ActiveIdentifier := (value : Int) })
      else
        Except.ok ("IAVD" ++ toString thisInput.id ++ "   \r",
          some ("While attempting to set the input, the serial command returned " ++ data), st)

/-- Television.setActive command construction (src/platformAccessory.ts
line 125): `value ? 'POWR1   \r' : 'POWR0   \r'`. -/
def Television.setActiveCommand (value : Bool) : String :=
  if value then "POWR1   \r" else "POWR0   \r"

/-- SharpRS232.setOnHandler command construction (src/accessory.ts line 119):
`value ? 'POWR0   \r' : 'POWR0   \r'` — transcribed exactly as in the source,
where both branches of the conditional carry the same frame. -/
def SharpRS232.setOnCommand (value : Bool) : String :=
  if value then "POWR0   \r" else "POWR0   \r"

/-- SharpSerial.setOnHandler command construction (src/unnamed/part_000
line 119): `value ? 'POWR1   \r' : 'POWR0   \r'`. -/
def SharpSerial.setOnCommand (value : Bool) : String :=
  if value then "POWR1   \r" else "POWR0   \r"

/-- State of the serial port and line parser used by SharpRS232.sendCommand
(src/accessory.ts lines 42-66).  Each sendCommand call registers a data
listener with `parser.on` — a persistent EventEmitter listener, identified
here by the command's numeric id — and writes the command.  `calls` records
every callback invocation (command id, line) in order. -/
structure ParserPort where
  listeners : List Nat
  writes : List String
  calls : List (Nat × String)
deriving DecidableEq

/-- Fresh port: no listeners, no writes, no callback invocations. -/
def SharpRS232.initialPort : ParserPort := { listeners := [], writes := [], calls := [] }

/-- SharpRS232.sendCommand (src/accessory.ts lines 42-66) with the port open
and the write succeeding: registers a persistent data listener for this
command's callback via `this.parser.on('data', ...)` and writes the command
frame to the port. -/
def SharpRS232.sendCommand (st : ParserPort) (cmdId : Nat) (command : String) : ParserPort :=
  { st with listeners := st.listeners ++ [cmdId], writes := st.writes ++ [command] }

/-- Delivery of one decoded line: the EventEmitter invokes every registered
data listener in registration order, and `on`-listeners stay registered
(src/accessory.ts line 43 uses `on`, not `once`). -/
def SharpRS232.dataEvent (st : ParserPort) (data : String) : ParserPort :=
  { st with calls := st.calls ++ st.listeners.map (fun i => (i, data)) }

/-- A concrete sendCommand interaction: command 1 is sent, one line arrives,
command 2 is sent, a second line arrives. -/
def SharpRS232.twoCommandTrace : ParserPort :=
  SharpRS232.dataEvent
    (SharpRS232.sendCommand
      (SharpRS232.dataEvent (SharpRS232.sendCommand SharpRS232.initialPort 1 "POWR????\r") "1")
      2 "IAVD?   \r")
    "OK"

/-- Modelled from the spec: one pending command of the SerialProtocol engine
(src/protocols/serial.ts, imported by src/platformAccessory.ts but not
present in the source tree).  Spec section 3: a command is a payload plus a
response callback; the callback is identified here by a numeric id. -/
structure Cmd where
  id : Nat
  payload : String
deriving DecidableEq

/-- Modelled from the spec: the externally visible events of the engine —
a caller invoking send, or the Transport delivering one decoded line. -/
inductive Ev where
  | send (c : Cmd)
  | line (s : String)
deriving DecidableEq

/-- Modelled from the spec: the queue/Current state of the SerialProtocol
dispatcher together with its observable history: frames written to the
Transport, callback invocations (command id, line) in order, and the ids of
commands whose Transport write reported an IOError (spec section 7: the
failure is logged but resolves nothing). -/
structure DispatcherState where
  queue : List Cmd
  current : Option Cmd
  writes : List String
  calls : List (Nat × String)
  ioErrors : List Nat
deriving DecidableEq

/-- Modelled from the spec: initial dispatcher state — empty queue, no
command in flight, no history. -/
def SerialProtocol.initial : DispatcherState :=
  { queue := [], current := none, writes := [], calls := [], ioErrors := [] }

/-- A transport on which every write succeeds. -/
def noFail : Nat → Bool := fun _ => false

/-- A transport on which the first write fails and later writes succeed. -/
def failFirst : Nat → Bool := fun n => n == 0

/-- Modelled from the spec: the dispatch algorithm of SerialProtocol
(src/protocols/serial.ts is absent from the source tree; spec section 4.2):
if the queue is empty stay Idle, else pop its head into Current and write the
payload to the Transport.  `wfail` tells whether the n-th write fails;
per spec section 7 the current source only logs a failed write (recorded in
`ioErrors`) and otherwise proceeds exactly as for a successful write, leaving
Current set. -/
def SerialProtocol.dispatch (wfail : Nat → Bool) (st : DispatcherState) : DispatcherState :=
  match st.queue with
  | [] => st
  | c :: rest =>
    { st with
      queue := rest
      current := some c
      writes := st.writes ++ [c.payload]
      ioErrors := if wfail st.writes.length then st.ioErrors ++ [c.id] else st.ioErrors }

/-- Modelled from the spec: SerialProtocol.send (spec section 4.2): enqueue
the command; if the Dispatcher is idle (no Current), immediately begin
dispatching. -/
def SerialProtocol.send (wfail : Nat → Bool) (st : DispatcherState) (c : Cmd) : DispatcherState :=
  let st1 := { st with queue := st.queue ++ [c] }
  match st.current with
  | some _ => st1
  | none => SerialProtocol.dispatch wfail st1

/-- Modelled from the spec: the line-arrival algorithm (spec section 4.2):
a line arriving with no Current is discarded; otherwise the current
command's callback is invoked with the line, Current is cleared and the
dispatch algorithm re-runs. -/
def SerialProtocol.onLine (wfail : Nat → Bool) (st : DispatcherState) (s : String) : DispatcherState :=
  match st.current with
  | none => st
  | some c =>
    SerialProtocol.dispatch wfail { st with current := none, calls := st.calls ++ [(c.id, s)] }

/-- Modelled from the spec: one externally triggered step of the engine. -/
def SerialProtocol.step (wfail : Nat → Bool) (st : DispatcherState) : Ev → DispatcherState
  | Ev.send c => SerialProtocol.send wfail st c
  | Ev.line s => SerialProtocol.onLine wfail st s

/-- Modelled from the spec: run the engine over a serialized event history
(spec section 5: send calls and line events are processed as serialized
tasks). -/
def SerialProtocol.run (wfail : Nat → Bool) (st : DispatcherState) (es : List Ev) : DispatcherState :=
  es.foldl (SerialProtocol.step wfail) st

/-- The commands carried by the send events of an event list. -/
def evCmds : List Ev → List Cmd
  | [] => []
  | Ev.send c :: t => c :: evCmds t
  | Ev.line _ :: t => evCmds t

/-- The line among 0001..0008 reporting input number n. -/
def fourDigit (n : Nat) : String := "000" ++ toString n

/-- Running the engine over a concatenated history is running it over the
parts in order. -/
theorem SerialProtocol.run_append (wfail : Nat → Bool) (st : DispatcherState) (es1 es2 : List Ev) :
    SerialProtocol.run wfail st (es1 ++ es2) =
      SerialProtocol.run wfail (SerialProtocol.run wfail st es1) es2 := by
  simp [SerialProtocol.run, List.foldl_append]

/-- While a command is in flight, send events only append to the queue. -/
theorem SerialProtocol.run_sends_busy (wfail : Nat → Bool) :
    ∀ (cs q : List Cmd) (c : Cmd) (ws : List String) (ks : List (Nat × String)) (io : List Nat),
      SerialProtocol.run wfail ⟨q, some c, ws, ks, io⟩ (cs.map Ev.send) =
        ⟨q ++ cs, some c, ws, ks, io⟩ := by
  intro cs
  induction cs with
  | nil => intro q c ws ks io; simp [SerialProtocol.run]
  | cons a t ih =>
    intro q c ws ks io
    rw [List.map_cons]
    show SerialProtocol.run wfail
        (SerialProtocol.step wfail ⟨q, some c, ws, ks, io⟩ (Ev.send a)) (t.map Ev.send) = _
    have hstep : SerialProtocol.step wfail ⟨q, some c, ws, ks, io⟩ (Ev.send a) =
        ⟨q ++ [a], some c, ws, ks, io⟩ := rfl
    rw [hstep, ih]
    simp

/-- Draining: with command c in flight and q queued, delivering exactly
`q.length + 1` lines resolves every command in order, zipping ids with
lines, and writes the queued payloads in order. -/
theorem SerialProtocol.run_drain :
    ∀ (q : List Cmd) (c : Cmd) (ls : List String), ls.length = q.length + 1 →
      ∀ (ws : List String) (ks : List (Nat × String)) (io : List Nat),
        SerialProtocol.run noFail ⟨q, some c, ws, ks, io⟩ (ls.map Ev.line) =
          ⟨[], none, ws ++ q.map Cmd.payload, ks ++ List.zip ((c :: q).map Cmd.id) ls, io⟩ := by
  intro q
  induction q with
  | nil =>
    intro c ls h ws ks io
    cases ls with
    | nil => simp at h
    | cons l ls2 =>
      cases ls2 with
      | nil =>
        show SerialProtocol.run noFail
            (SerialProtocol.step noFail ⟨[], some c, ws, ks, io⟩ (Ev.line l)) [] = _
        have hstep : SerialProtocol.step noFail ⟨[], some c, ws, ks, io⟩ (Ev.line l) =
            ⟨[], none, ws, ks ++ [(c.id, l)], io⟩ := rfl
        rw [hstep]
        simp [SerialProtocol.run, List.zip]
      | cons l2 ls3 => simp at h
  | cons c2 t ih =>
    intro c ls h ws ks io
    cases ls with
    | nil => simp at h
    | cons l ls2 =>
      have h2 : ls2.length = t.length + 1 := by simp at h; omega
      rw [List.map_cons]
      show SerialProtocol.run noFail
          (SerialProtocol.step noFail ⟨c2 :: t, some c, ws, ks, io⟩ (Ev.line l)) (ls2.map Ev.line) = _
      have hstep : SerialProtocol.step noFail ⟨c2 :: t, some c, ws, ks, io⟩ (Ev.line l) =
          ⟨t, some c2, ws ++ [c2.payload], ks ++ [(c.id, l)], io⟩ := rfl
      rw [hstep, ih c2 ls2 h2]
      simp [List.zip_cons_cons, List.append_assoc]

/-- While a command is in flight, a history without line events only appends
its send commands to the queue: nothing is written, nothing is resolved. -/
theorem SerialProtocol.run_no_lines_busy (wfail : Nat → Bool) :
    ∀ (es : List Ev), (∀ e ∈ es, ∀ s, e ≠ Ev.line s) →
      ∀ (q : List Cmd) (c : Cmd) (ws : List String) (ks : List (Nat × String)) (io : List Nat),
        SerialProtocol.run wfail ⟨q, some c, ws, ks, io⟩ es = ⟨q ++ evCmds es, some c, ws, ks, io⟩ := by
  intro es
  induction es with
  | nil => intro _ q c ws ks io; simp [SerialProtocol.run, evCmds]
  | cons e t ih =>
    intro h q c ws ks io
    cases e with
    | line s => exact absurd rfl (h (Ev.line s) (List.mem_cons_self _ _) s)
    | send a =>
      show SerialProtocol.run wfail
          (SerialProtocol.step wfail ⟨q, some c, ws, ks, io⟩ (Ev.send a)) t = _
      have hstep : SerialProtocol.step wfail ⟨q, some c, ws, ks, io⟩ (Ev.send a) =
          ⟨q ++ [a], some c, ws, ks, io⟩ := rfl
      rw [hstep, ih (fun e2 he2 s2 => h e2 (List.mem_cons_of_mem _ he2) s2)]
      simp [evCmds, List.append_assoc]

/-- In the 0001..0008 branch, getActiveIdentifier returns the findIndex
translation with no error. -/
theorem Television.getActiveIdentifier_token_branch (l : List InputDef) (cached : Int)
    (data : String) (h : hasInputToken data = true) :
    Television.getActiveIdentifier (some l) cached data =
      Except.ok (CbRes.ok (findIndexJS (fun inp => idMatches inp (parseIntJS data)) l)) := by
  simp [Television.getActiveIdentifier, h]

/-- The findIndex embedding returns the position of the first match: if no
element of `pre` satisfies p and x does, the result on `pre ++ x :: rest`
is the length of `pre` (shifted by the accumulator). -/
theorem findIndexGo_first (p : α → Bool) :
    ∀ (pre : List α) (x : α) (rest : List α), p x = true → (∀ y ∈ pre, p y = false) →
      ∀ s : Nat, findIndexGo p s (pre ++ x :: rest) = (s : Int) + pre.length := by
  intro pre
  induction pre with
  | nil =>
    intro x rest hx _ s
    simp [findIndexGo, hx]
  | cons a t ih =>
    intro x rest hx hall s
    have ha : p a = false := hall a (List.mem_cons_self a t)
    show findIndexGo p s (a :: (t ++ x :: rest)) = _
    simp only [findIndexGo, ha, Bool.false_eq_true, if_false]
    rw [ih x rest hx (fun y hy => hall y (List.mem_cons_of_mem a hy)) (s + 1)]
    simp [List.length_cons]
    ring

/-- For n between 1 and 8 the line 000n passes the token test and parseInt
reads it as n. -/
theorem fourDigit_token : ∀ n : Nat, 1 ≤ n → n ≤ 8 →
    hasInputToken (fourDigit n) = true ∧ parseIntJS (fourDigit n) = some (n : Int) := by
  intro n h1 h2
  interval_cases n <;> exact ⟨by decide, rfl⟩

/-- Claim C1 (FIFO correlation): for every sequence of N commands submitted
via send before any response line arrives, if exactly N response lines are
then delivered one at a time, the callback history is exactly the zip of the
submitted command ids with the delivered lines — the i-th submitted command's
callback is invoked with the i-th line, in submission order, exactly once
each. -/
theorem SerialProtocol.fifo_correlation :
    ∀ (cs : List Cmd) (ls : List String), ls.length = cs.length →
      (SerialProtocol.run noFail SerialProtocol.initial (cs.map Ev.send ++ ls.map Ev.line)).calls =
        List.zip (cs.map Cmd.id) ls := by
  intro cs ls h
  cases cs with
  | nil =>
    cases ls with
    | nil => rfl
    | cons l ls2 => simp at h
  | cons c cs2 =>
    have h2 : ls.length = cs2.length + 1 := by simpa using h
    rw [SerialProtocol.run_append]
    have hsends : SerialProtocol.run noFail SerialProtocol.initial ((c :: cs2).map Ev.send) =
        ⟨cs2, some c, [c.payload], [], []⟩ := by
      rw [List.map_cons]
      show SerialProtocol.run noFail
          (SerialProtocol.step noFail SerialProtocol.initial (Ev.send c)) (cs2.map Ev.send) = _
      have hstep : SerialProtocol.step noFail SerialProtocol.initial (Ev.send c) =
          ⟨[], some c, [c.payload], [], []⟩ := rfl
      rw [hstep, SerialProtocol.run_sends_busy]
      simp
    rw [hsends, SerialProtocol.run_drain cs2 c ls h2]
    simp

/-- Witness for C1: two commands sent before any line, then two lines: the
first callback gets the first line, the second the second. -/
theorem SerialProtocol.fifo_correlation_witness :
    (SerialProtocol.run noFail SerialProtocol.initial
        ([{ id := 1, payload := "POWR????\r" }, { id := 2, payload := "IAVD?   \r" }].map Ev.send ++
          ["1", "0001"].map Ev.line)).calls = [(1, "1"), (2, "0001")] :=
  SerialProtocol.fifo_correlation
    [{ id := 1, payload := "POWR????\r" }, { id := 2, payload := "IAVD?   \r" }] ["1", "0001"] rfl

/-- Claim C2 (exactly-once callback delivery, refuted by the source):
SharpRS232.sendCommand registers its callback with `parser.on`, a persistent
listener, so after command 1 is answered and command 2 is sent and answered,
command 1's callback has fired twice — once with each line — instead of
exactly once. -/
theorem SharpRS232.sendCommand_double_callback :
    SharpRS232.twoCommandTrace.calls = [(1, "1"), (1, "OK"), (2, "OK")] ∧
    (SharpRS232.twoCommandTrace.calls.filter (fun pr => pr.fst == 1)).length = 2 := by
  constructor
  · rfl
  · rfl

/-- Claim C3 (pipelining guard): after send A then send B and any further
send-only activity, only A's payload has been written; B's payload is written
exactly when the first line event resolves A. -/
theorem SerialProtocol.pipelining_guard :
    ∀ (a b : Cmd) (es : List Ev) (l : String), (∀ e ∈ es, ∀ s, e ≠ Ev.line s) →
      (SerialProtocol.run noFail SerialProtocol.initial
          (Ev.send a :: Ev.send b :: es)).writes = [a.payload] ∧
      (SerialProtocol.run noFail SerialProtocol.initial
          (Ev.send a :: Ev.send b :: (es ++ [Ev.line l]))).writes = [a.payload, b.payload] := by
  intro a b es l h
  have hsends : SerialProtocol.run noFail SerialProtocol.initial (Ev.send a :: Ev.send b :: es) =
      ⟨[b] ++ evCmds es, some a, [a.payload], [], []⟩ := by
    show SerialProtocol.run noFail
        (SerialProtocol.step noFail
          (SerialProtocol.step noFail SerialProtocol.initial (Ev.send a)) (Ev.send b)) es = _
    have h2 : SerialProtocol.step noFail
        (SerialProtocol.step noFail SerialProtocol.initial (Ev.send a)) (Ev.send b) =
          ⟨[b], some a, [a.payload], [], []⟩ := rfl
    rw [h2]
    exact SerialProtocol.run_no_lines_busy noFail es h [b] a [a.payload] [] []
  constructor
  · rw [hsends]
  · have hsplit : Ev.send a :: Ev.send b :: (es ++ [Ev.line l]) =
        (Ev.send a :: Ev.send b :: es) ++ [Ev.line l] := by simp
    rw [hsplit, SerialProtocol.run_append, hsends]
    show (SerialProtocol.step noFail
        ⟨[b] ++ evCmds es, some a, [a.payload], [], []⟩ (Ev.line l)).writes = _
    rfl

/-- Witness for C3: concrete A and B with no further sends. -/
theorem SerialProtocol.pipelining_guard_witness :
    (SerialProtocol.run noFail SerialProtocol.initial
        [Ev.send { id := 1, payload := "POWR1   \r" },
          Ev.send { id := 2, payload := "IAVD?   \r" }]).writes = ["POWR1   \r"] ∧
    (SerialProtocol.run noFail SerialProtocol.initial
        [Ev.send { id := 1, payload := "POWR1   \r" },
          Ev.send { id := 2, payload := "IAVD?   \r" }, Ev.line "OK"]).writes =
      ["POWR1   \r", "IAVD?   \r"] :=
  SerialProtocol.pipelining_guard { id := 1, payload := "POWR1   \r" }
    { id := 2, payload := "IAVD?   \r" } [] "OK"
    (fun e he _ => absurd he (List.not_mem_nil e))

/-- Claim C4 (discard-when-idle): with an empty queue and no command in
flight, a line event leaves the dispatcher state — queue, Current, writes,
callback history and error log — completely unchanged, on any transport. -/
theorem SerialProtocol.discard_when_idle :
    ∀ (wfail : Nat → Bool) (s : String) (ws : List String)
      (ks : List (Nat × String)) (io : List Nat),
      SerialProtocol.step wfail ⟨[], none, ws, ks, io⟩ (Ev.line s) = ⟨[], none, ws, ks, io⟩ := by
  intro wfail s ws ks io
  rfl

/-- Claim C5 (set-power command encoding, refuted by the source):
SharpRS232.setOnHandler writes the frame POWR0 followed by three spaces and a
carriage return for value true as well as for value false (accessory.ts line
119 has the same frame in both branches of the conditional), while the
Television adapter and the SharpSerial adapter encode true as POWR1. -/
theorem SharpRS232.setOnHandler_power_frames :
    SharpRS232.setOnCommand true = "POWR0   \r" ∧
    SharpRS232.setOnCommand false = "POWR0   \r" ∧
    SharpSerial.setOnCommand true = "POWR1   \r" ∧
    Television.setActiveCommand true = "POWR1   \r" ∧
    Television.setActiveCommand false = "POWR0   \r" :=
  ⟨rfl, rfl, rfl, rfl, rfl⟩

/-- Claim C6 (IOError resolution, refuted by the modelled engine): when the
write of the first command fails (failFirst, the IOError is logged as id 1),
the dispatcher still holds command 1 as Current, has invoked no callback at
all, and has never written the queued second command — the queue is stalled
rather than advanced. -/
theorem SerialProtocol.write_failure_stalls_queue :
    SerialProtocol.run failFirst SerialProtocol.initial
        [Ev.send { id := 1, payload := "POWR1   \r" },
          Ev.send { id := 2, payload := "POWR????\r" }] =
      { queue := [{ id := 2, payload := "POWR????\r" }],
        current := some { id := 1, payload := "POWR1   \r" },
        writes := ["POWR1   \r"], calls := [], ioErrors := [1] } := rfl

/-- Counterexample for claim C7: setActiveIdentifier invoked with an empty
configured input list and requested index 0 throws a TypeError past the call
boundary (modelled as Except.error) instead of reaching the callback. -/
theorem Television.setActiveIdentifier_throws_on_short_inputs :
    Television.setActiveIdentifier (some []) Television.initialStates 0 "OK" =
      Except.error "TypeError: Cannot read property id of undefined" := rfl

/-- Claim C7 as amended: when the requested index does have a configured
input, setActiveIdentifier never throws, and getActiveIdentifier never
throws when the input list is present; every outcome is then delivered
through the callback channel. -/
theorem Television.handlers_no_throw_in_range :
    (∀ (l : List InputDef) (st : States) (value : Nat) (data : String) (inp : InputDef),
      l[value]? = some inp →
      (Television.setActiveIdentifier (some l) st value data).isOk = true) ∧
    (∀ (l : List InputDef) (cached : Int) (data : String),
      (Television.getActiveIdentifier (some l) cached data).isOk = true) := by
  constructor
  · intro l st v d inp h
    simp only [Television.setActiveIdentifier, h]
    rcases eq_or_ne d "" with hd | hd
    · simp [hd, Except.isOk, Except.toBool]
    · simp [hd, Except.isOk, Except.toBool]
  · intro l c d
    cases ht : hasInputToken d
    · cases he : jsIncludes d "ERR"
      · simp [Television.getActiveIdentifier, ht, he, Except.isOk, Except.toBool]
      · simp [Television.getActiveIdentifier, ht, he, Except.isOk, Except.toBool]
    · simp [Television.getActiveIdentifier, ht, Except.isOk, Except.toBool]

/-- Witness for amended C7: a configured input at index 0 for the set
handler, and the present-but-empty input list for the get handler. -/
theorem Television.handlers_no_throw_in_range_witness :
    (Television.setActiveIdentifier (some [{ id := 1, name := "HDMI 1", type := 3 }])
        Television.initialStates 0 "OK").isOk = true ∧
    (Television.getActiveIdentifier (some []) 0 "0001").isOk = true :=
  ⟨Television.handlers_no_throw_in_range.1 [{ id := 1, name := "HDMI 1", type := 3 }]
      Television.initialStates 0 "OK" { id := 1, name := "HDMI 1", type := 3 } rfl,
    Television.handlers_no_throw_in_range.2 [] 0 "0001"⟩

/-- Claim C8 (input-query translation): when the response to the input query
is the 4-digit line 000n with n between 1 and 8, and the configured input
list splits as pre ++ inp :: rest where inp is the first entry whose id
equals n, getActiveIdentifier calls back with no error and the position of
inp in the list (the length of pre). -/
theorem Television.getActiveIdentifier_input_translation :
    ∀ (n : Nat) (pre rest : List InputDef) (inp : InputDef) (cached : Int),
      1 ≤ n → n ≤ 8 → inp.id = (n : Int) → (∀ y ∈ pre, y.id ≠ (n : Int)) →
      Television.getActiveIdentifier (some (pre ++ inp :: rest)) cached (fourDigit n) =
        Except.ok (CbRes.ok ((pre.length : Nat) : Int)) := by
  intro n pre rest inp cached h1 h2 hid hpre
  obtain ⟨ht, hp⟩ := fourDigit_token n h1 h2
  rw [Television.getActiveIdentifier_token_branch _ _ _ ht]
  simp only [hp]
  have hx : (fun i2 => idMatches i2 (some (n : Int))) inp = true := by
    simp [idMatches, hid]
  have hall : ∀ y ∈ pre, (fun i2 => idMatches i2 (some (n : Int))) y = false := by
    intro y hy
    simp only [idMatches, beq_eq_false_iff_ne, ne_eq]
    exact hpre y hy
  have hfind := findIndexGo_first (fun i2 => idMatches i2 (some (n : Int))) pre inp rest hx hall 0
  simp [findIndexJS, hfind]

/-- Witness for C8: the device reports 0002 and the second configured input
has id 2, so the callback value is index 1. -/
theorem Television.getActiveIdentifier_input_translation_witness :
    Television.getActiveIdentifier
        (some [{ id := 3, name := "TV", type := 3 }, { id := 2, name := "HDMI 2", type := 3 }])
        7 (fourDigit 2) = Except.ok (CbRes.ok 1) := by
  have h := Television.getActiveIdentifier_input_translation 2
    [{ id := 3, name := "TV", type := 3 }] [] { id := 2, name := "HDMI 2", type := 3 } 7
    (by decide) (by decide) (by decide)
    (by intro y hy; simp at hy; subst hy; decide)
  exact h

/-- Counterexample for claim C9: the line ERR0001 contains ERR, yet with one
configured input of id 1 and cached ActiveIdentifier 0 the callback receives
value -1 (the 0001 branch fires first and parseInt yields NaN), not the
cached value 0. -/
theorem Television.getActiveIdentifier_err_line_not_cached :
    jsIncludes "ERR0001" "ERR" = true ∧
    Television.getActiveIdentifier (some [{ id := 1, name := "HDMI 1", type := 3 }]) 0 "ERR0001" =
      Except.ok (CbRes.ok (-1)) :=
  ⟨by decide, rfl⟩

/-- Claim C9 as amended: the cached ActiveIdentifier starts at 0; a response
line containing ERR and none of the tokens 0001..0008 makes
getActiveIdentifier call back with no error and the cached value; and a line
containing ERR never produces an error callback (lines containing both ERR
and a 000n token take the input-translation branch instead). -/
theorem Television.getActiveIdentifier_cached_on_err :
    Television.initialStates.ActiveIdentifier = 0 ∧
    (∀ (inputs : Option (List InputDef)) (cached : Int) (data : String),
      jsIncludes data "ERR" = true → hasInputToken data = false →
      Television.getActiveIdentifier inputs cached data = Except.ok (CbRes.ok cached)) ∧
    (∀ (inputs : Option (List InputDef)) (cached : Int) (data : String) (m : String) (v : Int),
      jsIncludes data "ERR" = true →
      Television.getActiveIdentifier inputs cached data ≠ Except.ok (CbRes.err m v)) := by
  refine ⟨rfl, ?_, ?_⟩
  · intro inputs cached data h1 h2
    simp [Television.getActiveIdentifier, h1, h2]
  · intro inputs cached data m v h1
    cases ht : hasInputToken data
    · simp [Television.getActiveIdentifier, ht, h1]
    · cases inputs with
      | none => simp [Television.getActiveIdentifier, ht]
      | some l => simp [Television.getActiveIdentifier, ht]

/-- Witness for amended C9: the bare line ERR with cached value 5. -/
theorem Television.getActiveIdentifier_cached_on_err_witness :
    Television.getActiveIdentifier (some []) 5 "ERR" = Except.ok (CbRes.ok 5) :=
  Television.getActiveIdentifier_cached_on_err.2.1 (some []) 5 "ERR" (by decide) (by decide)

/-- Claim C10 (setActiveIdentifier success criterion): with a configured
input at the requested index, any non-empty response line is treated as
success — the cached ActiveIdentifier becomes the requested index and the
callback receives no error — while the empty response line produces an error
callback and leaves the cache untouched. -/
theorem Television.setActiveIdentifier_success_criterion :
    ∀ (l : List InputDef) (st : States) (value : Nat) (data : String) (inp : InputDef),
      l[value]? = some inp →
      (data ≠ "" →
        Television.setActiveIdentifier (some l) st value data =
          Except.ok ("IAVD" ++ toString inp.id ++ "   \r", none,
            { st with ActiveIdentifier := (value : Int) })) ∧
      (data = "" →
        Television.setActiveIdentifier (some l) st value data =
          Except.ok ("IAVD" ++ toString inp.id ++ "   \r",
            some ("While attempting to set the input, the serial command returned " ++ data),
            st)) := by
  intro l st v d inp h
  constructor
  · intro hd
    simp [Television.setActiveIdentifier, h, hd]
  · intro hd
    simp [Television.setActiveIdentifier, h, hd]

/-- Witness for C10: the response ERR on a configured index 1 still updates
the cache to 1 and reports success. -/
theorem Television.setActiveIdentifier_success_criterion_witness :
    Television.setActiveIdentifier
        (some [{ id := 1, name := "HDMI 1", type := 3 }, { id := 2, name := "HDMI 2", type := 3 }])
        { ActiveIdentifier := 0 } 1 "ERR" =
      Except.ok ("IAVD2   \r", none, { ActiveIdentifier := 1 }) :=
  (Television.setActiveIdentifier_success_criterion
      [{ id := 1, name := "HDMI 1", type := 3 }, { id := 2, name := "HDMI 2", type := 3 }]
      { ActiveIdentifier := 0 } 1 "ERR" { id := 2, name := "HDMI 2", type := 3 } rfl).1
    (by decide)
